import Mathlib

/-!
Shallow embedding of `rcb_ticket_monitor.py`, a single-file monitor that
renders a ticket-shop page, inspects the DOM for purchase affordances, and
on detection fires a PagerDuty event and a Slack webhook message.

External effects (the Selenium browser session, the two HTTP transports, the
process environment) are modelled as explicit inputs: an environment value
records, for each effectful step of the Python code, either the value that
step produced or the exception it raised (`Except`).  Pure control flow is
translated line by line from the source.
-/

namespace RcbTicketMonitor

/-- Substring containment, the semantics of Python's `x in s` on strings and
of XPath's `contains(haystack, needle)`. -/
def strContains (s pat : String) : Bool :=
  (List.range (s.length + 1)).any fun i => List.isPrefixOf pat.toList (s.toList.drop i)

/-- Python's `str.upper()` restricted to the ASCII labels the code handles. -/
def strUpper (s : String) : String :=
  ⟨s.toList.map Char.toUpper⟩

/-- Line 24: the monitored URL. -/
def URL : String := "https://shop.royalchallengers.com/ticket"

/-- Line 25: the alert message sent to Slack. -/
def ALERT_MESSAGE : String :=
  "🎉 RCB TICKETS ARE NOW AVAILABLE! 🎉 Go to: https://shop.royalchallengers.com/ticket"

/-- Line 26: expected number of "COMING SOON" elements (used only by the
commented-out heuristic). -/
def EXPECTED_COMING_SOON_COUNT : Nat := 7

/-- The process environment: `os.environ.get` returns `none` for an unset
variable; Python truthiness also treats the empty string as unset. -/
structure OsEnv where
  slackWebhookVar : Option String
  pagerdutyRoutingKeyVar : Option String

/-- The `ValueError` raised at module load (lines 30-37) when a required
variable is missing. -/
inductive ConfigError where
  | missingSlackWebhook
  | missingPagerdutyRoutingKey
  deriving DecidableEq, Repr

/-- The two module-level secrets once loading succeeded. -/
structure Config where
  slackWebhook : String
  pagerdutyRoutingKey : String

/-- Lines 29-37: read `SLACK_WEBHOOK` then `PAGERDUTY_ROUTING_KEY` from the
environment, raising `ValueError` when either is falsy (unset or empty).
This runs at module import, before any function body. -/
def loadConfig (env : OsEnv) : Except ConfigError Config :=
  match env.slackWebhookVar with
  | none => .error .missingSlackWebhook
  | some s =>
    if s = "" then .error .missingSlackWebhook
    else
      match env.pagerdutyRoutingKeyVar with
      | none => .error .missingPagerdutyRoutingKey
      | some p =>
        if p = "" then .error .missingPagerdutyRoutingKey
        else .ok ⟨s, p⟩

/-- The PagerDuty transport outcome as `send_pagerduty_event` observes it:
`none` models `requests.post` raising a `RequestException`; otherwise the
response's status code and whether its body parses as JSON (line 59 calls
`response.json()`, whose failure is a `requests.exceptions.JSONDecodeError`,
itself a `RequestException`). -/
structure PagerdutyResponse where
  status_code : Nat
  json_ok : Bool
  deriving DecidableEq, Repr

/-- Lines 39-65, `send_pagerduty_event`: POST the event payload;
`raise_for_status()` raises `HTTPError` exactly for status codes in 400-599;
then the response body is parsed as JSON for logging; every
`RequestException` is caught and turns into `False`. -/
def send_pagerduty_event (routing_key : String) (resp : Option PagerdutyResponse) : Bool :=
  match resp with
  | none => false
  | some response =>
    if 400 ≤ response.status_code ∧ response.status_code < 600 then false
    else if response.json_ok then true
    else false

/-- The Slack transport outcome as `send_slack_message` observes it:
`none` models `requests.post` raising (caught by the bare `except`). -/
structure SlackResponse where
  status_code : Nat
  text : String
  deriving DecidableEq, Repr

/-- Lines 67-105, `send_slack_message`: POST the `{"text": message}` payload;
success is exactly status code 200 with body the literal string `"ok"`
(line 96); any exception yields `False`. -/
def send_slack_message (webhook_url message : String) (resp : Option SlackResponse) : Bool :=
  match resp with
  | none => false
  | some response =>
    if response.status_code == 200 && response.text == "ok" then true
    else false

/-- An exception raised by one of the Selenium/browser steps inside
`check_ticket_availability`'s `try` block. -/
inductive RenderError where
  | setupFailed
  | navigationTimeout
  | renderCrash
  | artifactWriteFailed
  | domQueryFailed
  deriving DecidableEq, Repr

/-- The rendered page as the detector queries it: the text content of each
element (what XPath `contains(text(), _)` inspects) and the visible labels of
the `button` elements in document order. -/
structure RenderedDocument where
  texts : List String
  buttons : List String
  deriving DecidableEq, Repr

/-- One run's browser behaviour: for each effectful step of
`check_ticket_availability`, the value it produced or the exception it raised. -/
structure BrowserEnv where
  /-- Line 129, `setup_selenium()` (which re-raises its own failures). -/
  setup : Except RenderError Unit
  /-- Line 132, `driver.get(URL)`. -/
  navigate : Except RenderError Unit
  /-- Line 138, `driver.save_screenshot(...)`. -/
  screenshot : Except RenderError Unit
  /-- Line 142, `driver.page_source`. -/
  pageSource : Except RenderError String
  /-- Lines 145-146, writing `latest_dynamic_page.html`. -/
  saveHtml : Except RenderError Unit
  /-- Lines 150-169, the DOM the three `find_elements` calls query. -/
  dom : Except RenderError RenderedDocument
  deriving Repr

/-- Line 150's XPath predicate: the element's text contains `'BUY TICKETS'`,
`'Buy Tickets'` or `'Get Tickets'` (note: `'GET TICKETS'` in all caps is not
among the alternatives). -/
def matchesBuyXPath (t : String) : Bool :=
  strContains t "BUY TICKETS" || strContains t "Buy Tickets" || strContains t "Get Tickets"

/-- Line 153's XPath predicate: the element's text contains `'COMING SOON'`
or `'Coming Soon'`. -/
def matchesComingSoonXPath (t : String) : Bool :=
  strContains t "COMING SOON" || strContains t "Coming Soon"

/-- Line 174's test on an uppercased button label: (`"BUY"` or `"GET"`)
and `"TICKET"` as substrings. -/
def buttonQualifies (label : String) : Bool :=
  let button_text := strUpper label
  (strContains button_text "BUY" || strContains button_text "GET") &&
    strContains button_text "TICKET"

/-- The body of `check_ticket_availability`'s `try` block (lines 127-180):
each browser step in order, then the two XPath queries, the `BUY TICKETS`
check (line 159), the commented-out COMING SOON heuristic (lines 163-166,
absent from control flow), and the capped button loop (lines 171-176, which
slices `buttons[:5]` before testing each label). Raised exceptions propagate
as `.error`. -/
def checkBody (env : BrowserEnv) : Except RenderError Bool := do
  let _ ← env.setup
  let _ ← env.navigate
  let _ ← env.screenshot
  let _page_source ← env.pageSource
  let _ ← env.saveHtml
  let doc ← env.dom
  let buy_tickets_elements := doc.texts.filter matchesBuyXPath
  let _coming_soon_elements := doc.texts.filter matchesComingSoonXPath
  if buy_tickets_elements.length > 0 then
    return true
  else
    let buttons := doc.buttons
    if (buttons.take 5).any buttonQualifies then
      return true
    else
      return false

/-- Lines 124-191, `check_ticket_availability`: run the `try` body; the
`except Exception` handler (lines 182-184) turns any raised exception into
`return False`.  (The `finally` block only quits the driver and suppresses
its own errors; it does not affect the returned value.) -/
def check_ticket_availability (env : BrowserEnv) : Bool :=
  match checkBody env with
  | .ok b => b
  | .error _ => false

/-- A browser run in which every effectful step succeeds and the DOM is
`doc`, with page source `src`. -/
def okEnv (src : String) (doc : RenderedDocument) : BrowserEnv :=
  ⟨.ok (), .ok (), .ok (), .ok src, .ok (), .ok doc⟩

/-- An outbound network interaction of one process run, for stating which
external calls a run performs. -/
inductive NetEvent where
  | detect
  | pagerduty
  | slack
  deriving DecidableEq, Repr

/-- All external behaviour one full run can observe. -/
structure World where
  browser : BrowserEnv
  pagerdutyResponse : Option PagerdutyResponse
  slackResponse : Option SlackResponse

/-- Lines 202-207 of `main`: send the PagerDuty event, then the Slack
message (both statements always execute; there is no short-circuit), and
combine with `or`.  The second component records the channels attempted. -/
def dispatchAlerts (cfg : Config) (w : World) : Bool × List NetEvent :=
  let pagerduty_sent := send_pagerduty_event cfg.pagerdutyRoutingKey w.pagerdutyResponse
  let slack_sent := send_slack_message cfg.slackWebhook ALERT_MESSAGE w.slackResponse
  (pagerduty_sent || slack_sent, [NetEvent.pagerduty, NetEvent.slack])

/-- Lines 193-217, `main`: one detection run; if tickets are available,
dispatch both alerts and exit 0 when at least one was sent, 1 when both
failed; otherwise exit 0 without dispatching.  The second component records
the network interactions the run performs, in order. -/
def main (cfg : Config) (w : World) : Nat × List NetEvent :=
  let tickets_available := check_ticket_availability w.browser
  if tickets_available then
    let (alert_sent, dispatched) := dispatchAlerts cfg w
    (if alert_sent then 0 else 1, NetEvent.detect :: dispatched)
  else
    (0, [NetEvent.detect])

/-- The whole process in its default (non-`--debug`) mode: module-level
configuration loading (lines 29-37) runs first; if it raises, `main` never
runs and no network interaction occurs (empty event list); otherwise the
run's exit code and events are `main`'s. -/
def runProgram (env : OsEnv) (w : World) : Except ConfigError Nat × List NetEvent :=
  match loadConfig env with
  | .error e => (.error e, [])
  | .ok cfg =>
    let (code, events) := main cfg w
    (.ok code, events)

/-! Concrete runs used as witnesses and counterexamples. -/

/-- A rendered page whose only text is the all-caps phrase `"GET TICKETS"`,
with no buttons. -/
def docGetTickets : RenderedDocument := ⟨["GET TICKETS"], []⟩

/-- A rendered page whose only text is `"BUY TICKETS"`, with no buttons. -/
def docBuyText : RenderedDocument := ⟨["BUY TICKETS"], []⟩

/-- A rendered page with no matching text and six buttons, only the sixth of
which carries a ticket-purchase label. -/
def docSixButtons : RenderedDocument :=
  ⟨[], ["MENU", "INFO", "LOGIN", "SEARCH", "CLOSE", "BUY TICKETS"]⟩

/-- A rendered page with no matching text whose second button carries a
ticket-purchase label in mixed case. -/
def docSecondButton : RenderedDocument := ⟨[], ["MENU", "Buy tickets now"]⟩

/-- A browser run that renders `docBuyText` but fails while saving the
debug screenshot. -/
def envArtifactFail : BrowserEnv :=
  ⟨.ok (), .ok (), .error .artifactWriteFailed, .ok "", .ok (), .ok docBuyText⟩

/-- A browser run in which `setup_selenium()` raises. -/
def envSetupFail : BrowserEnv :=
  ⟨.error .setupFailed, .ok (), .ok (), .ok "", .ok (), .ok ⟨[], []⟩⟩

/-- A loaded configuration with both secrets present. -/
def cfg0 : Config := ⟨"https://hooks.slack.example/T000/B000", "routing-key-0"⟩

/-- A run in which the page shows neither matching text nor any button and
both transports would fail. -/
def worldQuiet : World := ⟨okEnv "" ⟨[], []⟩, none, none⟩

/-- A run in which the page shows `"BUY TICKETS"` text and both transports
fail. -/
def worldFound : World := ⟨okEnv "" docBuyText, none, none⟩

/-! Helper lemmas. -/

/-- On a run whose browser steps all succeed, `check_ticket_availability`
reduces to the text check followed by the capped button check. -/
theorem check_okEnv_eq (src : String) (doc : RenderedDocument) :
    check_ticket_availability (okEnv src doc) =
      if 0 < (doc.texts.filter matchesBuyXPath).length then true
      else (doc.buttons.take 5).any buttonQualifies := by
  unfold check_ticket_availability checkBody okEnv
  simp only [bind, Except.bind, pure, Except.pure]
  by_cases h : 0 < (doc.texts.filter matchesBuyXPath).length
  · simp [h]
  · simp only [gt_iff_lt, if_neg h]
    cases hq : (doc.buttons.take 5).any buttonQualifies <;> simp [hq]

/-! Claim theorems. -/

/-- C1 (amended): for every rendered document (on a run whose browser steps
succeed) whose element texts contain at least one of the phrases the code
actually matches — `'BUY TICKETS'`, `'Buy Tickets'` or `'Get Tickets'` —
`check_ticket_availability` returns `true`, regardless of the document's
buttons. -/
theorem check_true_of_buy_phrase_text (src : String) (doc : RenderedDocument)
    (h : ∃ t ∈ doc.texts, matchesBuyXPath t = true) :
    check_ticket_availability (okEnv src doc) = true := by
  obtain ⟨t, ht, hm⟩ := h
  have hpos : 0 < (doc.texts.filter matchesBuyXPath).length :=
    List.length_pos.mpr (List.ne_nil_of_mem (List.mem_filter.mpr ⟨ht, hm⟩))
  rw [check_okEnv_eq, if_pos hpos]

/-- C1 (witness): a document whose text contains `"BUY TICKETS"` is
detected. -/
theorem check_true_of_buy_phrase_text_witness :
    check_ticket_availability (okEnv "" docBuyText) = true :=
  check_true_of_buy_phrase_text "" docBuyText ⟨"BUY TICKETS", by decide⟩

/-- C1 (counterexample): a document whose text contains the exact string
`"GET TICKETS"` (and no buttons at all) is NOT detected: the XPath on line
150 matches `'BUY TICKETS'`, `'Buy Tickets'` and `'Get Tickets'` but not the
all-caps `'GET TICKETS'`. -/
theorem getTickets_uppercase_text_not_detected :
    (∃ t ∈ docGetTickets.texts, strContains t "GET TICKETS" = true) ∧
      check_ticket_availability (okEnv "" docGetTickets) = false := by
  decide

/-- C2 (amended): on a run whose browser steps succeed, if no element text
matches the line-150 XPath and one of the FIRST FIVE buttons has a label
containing a buy/get token together with a ticket token (case-insensitively),
`check_ticket_availability` returns `true`. -/
theorem check_true_of_qualifying_button_in_first_five (src : String)
    (doc : RenderedDocument)
    (htext : ∀ t ∈ doc.texts, matchesBuyXPath t = false)
    (hbtn : ∃ b ∈ doc.buttons.take 5, buttonQualifies b = true) :
    check_ticket_availability (okEnv src doc) = true := by
  have hnil : doc.texts.filter matchesBuyXPath = [] :=
    List.filter_eq_nil_iff.mpr fun t ht => by simp [htext t ht]
  rw [check_okEnv_eq, hnil]
  simpa using List.any_eq_true.mpr hbtn

/-- C2 (witness): a qualifying second button is detected. -/
theorem check_true_of_qualifying_button_in_first_five_witness :
    check_ticket_availability (okEnv "" docSecondButton) = true :=
  check_true_of_qualifying_button_in_first_five "" docSecondButton (by decide)
    ⟨"Buy tickets now", by decide⟩

/-- C2 (counterexample): the slice `buttons[:5]` on line 171 caps the
availability test itself, not only the logging, so a document whose only
qualifying button is the sixth is NOT detected. -/
theorem sixth_button_not_detected :
    (∀ t ∈ docSixButtons.texts, matchesBuyXPath t = false) ∧
      (∃ b ∈ docSixButtons.buttons, buttonQualifies b = true) ∧
      check_ticket_availability (okEnv "" docSixButtons) = false := by
  decide

/-- C6: whenever any step of the `try` body raises (browser setup,
navigation, artifact writes, page-source retrieval, or the DOM queries),
`check_ticket_availability` returns `false` instead of propagating the
exception (lines 182-184). -/
theorem check_false_of_raised_error (env : BrowserEnv) (e : RenderError)
    (h : checkBody env = Except.error e) :
    check_ticket_availability env = false := by
  unfold check_ticket_availability
  rw [h]

/-- C6 (witness): a run whose browser setup raises yields `false`. -/
theorem check_false_of_raised_error_witness :
    check_ticket_availability envSetupFail = false :=
  check_false_of_raised_error envSetupFail RenderError.setupFailed rfl

/-- C7: on a run whose browser steps succeed, a document with no matching
element text and no qualifying button label anywhere yields `false`, no
matter how many `"COMING SOON"` elements (`n` of them) the page carries:
the commented-out count heuristic of lines 163-166 plays no part. -/
theorem no_positive_evidence_false_regardless_of_coming_soon (src : String)
    (texts buttons : List String) (n : Nat)
    (htext : ∀ t ∈ texts, matchesBuyXPath t = false)
    (hbtn : ∀ b ∈ buttons, buttonQualifies b = false) :
    check_ticket_availability
      (okEnv src ⟨texts ++ List.replicate n "COMING SOON", buttons⟩) = false := by
  have htext' : ∀ t ∈ texts ++ List.replicate n "COMING SOON",
      matchesBuyXPath t = false := by
    intro t ht
    rcases List.mem_append.mp ht with h | h
    · exact htext t h
    · rw [List.eq_of_mem_replicate h]; decide
  have hnil : (texts ++ List.replicate n "COMING SOON").filter matchesBuyXPath = [] :=
    List.filter_eq_nil_iff.mpr fun t ht => by simp [htext' t ht]
  rw [check_okEnv_eq]
  simp only [hnil, List.length_nil, lt_irrefl, if_false]
  exact List.any_eq_false.mpr fun b hb =>
    by simp [hbtn b (List.take_subset 5 buttons hb)]

/-- C7 (witness): the spec scenario — seven `"COMING SOON"` elements and no
buttons — yields `false`. -/
theorem no_positive_evidence_witness :
    check_ticket_availability
      (okEnv "" ⟨[] ++ List.replicate 7 "COMING SOON", []⟩) = false :=
  no_positive_evidence_false_regardless_of_coming_soon "" [] [] 7
    (by decide) (by decide)

/-- C9 (amended): a failure while persisting the debug artifacts (the
screenshot of line 138 or the HTML dump of lines 145-146) is caught and
never propagates, but it DOES abort the availability check: the run returns
`false` without the text and button searches deciding the result. -/
theorem artifact_failure_aborts_check (env : BrowserEnv)
    (h : (∃ e, env.screenshot = Except.error e) ∨
         (∃ e, env.saveHtml = Except.error e)) :
    check_ticket_availability env = false := by
  obtain ⟨su, na, sc, ps, sh, dm⟩ := env
  dsimp only at h
  rcases h with ⟨e, he⟩ | ⟨e, he⟩
  · subst he
    cases su <;> cases na <;> rfl
  · subst he
    cases su <;> cases na <;> cases sc <;> cases ps <;> rfl

/-- C9 (witness): a run that fails while saving the screenshot returns
`false`. -/
theorem artifact_failure_aborts_check_witness :
    check_ticket_availability envArtifactFail = false :=
  artifact_failure_aborts_check envArtifactFail
    (Or.inl ⟨RenderError.artifactWriteFailed, rfl⟩)

/-- C9 (counterexample): two runs rendering the same document (whose text
contains `"BUY TICKETS"`), one succeeding and one failing only at the
screenshot step: the artifact failure flips the result from `true` to
`false`, so the searches are NOT still performed and their result NOT
returned. -/
theorem artifact_failure_changes_result :
    check_ticket_availability (okEnv "" docBuyText) = true ∧
      check_ticket_availability envArtifactFail = false := by
  constructor <;> rfl

/-- C3: the dispatch step of `main` (lines 202-207) attempts both channels
unconditionally — the attempted-channel trace is always
`[pagerduty, slack]`, whatever either outcome — and its combined result is
the logical OR of the two per-channel outcomes, so it is `false` exactly
when both channels fail. -/
theorem dispatch_attempts_both_and_combines_or (cfg : Config) (w : World) :
    (dispatchAlerts cfg w).2 = [NetEvent.pagerduty, NetEvent.slack] ∧
      (dispatchAlerts cfg w).1 =
        (send_pagerduty_event cfg.pagerdutyRoutingKey w.pagerdutyResponse ||
          send_slack_message cfg.slackWebhook ALERT_MESSAGE w.slackResponse) ∧
      ((dispatchAlerts cfg w).1 = false ↔
        send_pagerduty_event cfg.pagerdutyRoutingKey w.pagerdutyResponse = false ∧
          send_slack_message cfg.slackWebhook ALERT_MESSAGE w.slackResponse = false) := by
  refine ⟨rfl, rfl, ?_⟩
  cases hpd : send_pagerduty_event cfg.pagerdutyRoutingKey w.pagerdutyResponse <;>
    cases hsl : send_slack_message cfg.slackWebhook ALERT_MESSAGE w.slackResponse <;>
      simp [dispatchAlerts, hpd, hsl]

/-- C4: `send_slack_message` succeeds exactly on an HTTP 200 response whose
body is the literal string `"ok"` (line 96); in particular a 200 with body
`"OK"` or `"\x7b\x7d"` fails, as does any raised transport exception. -/
theorem slack_success_iff_status200_body_ok (webhook_url message : String)
    (resp : Option SlackResponse) :
    (send_slack_message webhook_url message resp = true ↔
        resp = some ⟨200, "ok"⟩) ∧
      send_slack_message webhook_url message (some ⟨200, "OK"⟩) = false ∧
      send_slack_message webhook_url message (some ⟨200, "\x7b\x7d"⟩) = false ∧
      send_slack_message webhook_url message none = false := by
  refine ⟨?_, rfl, rfl, rfl⟩
  constructor
  · intro h
    rcases resp with _ | ⟨s, t⟩
    · exact absurd h (by simp [send_slack_message])
    · simp only [send_slack_message] at h
      split at h
      · rename_i hcond
        simp only [Bool.and_eq_true, beq_iff_eq] at hcond
        obtain ⟨hs, ht⟩ := hcond
        simp [hs, ht]
      · exact absurd h (by simp)
  · rintro rfl
    rfl

/-- C5: `main` (lines 193-217) exits 0 when detection is `false`, performing
only the detection interaction and invoking neither alert channel; when
detection is `true` it performs detection plus both channel attempts, and
exits 0 exactly when at least one channel delivered, 1 exactly when both
failed. -/
theorem main_exit_and_calls (cfg : Config) (w : World) :
    (check_ticket_availability w.browser = false →
      main cfg w = (0, [NetEvent.detect])) ∧
    (check_ticket_availability w.browser = true →
      (main cfg w).2 = [NetEvent.detect, NetEvent.pagerduty, NetEvent.slack] ∧
      ((main cfg w).1 = 0 ↔
        (send_pagerduty_event cfg.pagerdutyRoutingKey w.pagerdutyResponse = true ∨
          send_slack_message cfg.slackWebhook ALERT_MESSAGE w.slackResponse = true)) ∧
      ((main cfg w).1 = 1 ↔
        (send_pagerduty_event cfg.pagerdutyRoutingKey w.pagerdutyResponse = false ∧
          send_slack_message cfg.slackWebhook ALERT_MESSAGE w.slackResponse = false))) := by
  constructor
  · intro h
    simp [main, h]
  · intro h
    cases hpd : send_pagerduty_event cfg.pagerdutyRoutingKey w.pagerdutyResponse <;>
      cases hsl : send_slack_message cfg.slackWebhook ALERT_MESSAGE w.slackResponse <;>
        simp [main, dispatchAlerts, h, hpd, hsl]

/-- C5 (witness): a quiet run exits 0 with only the detection interaction; a
detected run attempts detection and both channels. -/
theorem main_exit_and_calls_witness :
    main cfg0 worldQuiet = (0, [NetEvent.detect]) ∧
      (main cfg0 worldFound).2 =
        [NetEvent.detect, NetEvent.pagerduty, NetEvent.slack] :=
  ⟨(main_exit_and_calls cfg0 worldQuiet).1 (by decide),
    ((main_exit_and_calls cfg0 worldFound).2 (by decide)).1⟩

/-- C8 (amended): `send_pagerduty_event` returns `true` exactly when a
response arrives whose status code is outside 400-599 (the only codes
`raise_for_status()` raises for) and whose body parses as JSON (line 59 logs
`response.json()`); transport errors, 4xx/5xx statuses and unparseable
bodies all yield `false`, and nothing propagates past the handler of lines
61-65. -/
theorem pagerduty_success_iff_not_4xx_5xx (routing_key : String)
    (resp : Option PagerdutyResponse) :
    send_pagerduty_event routing_key resp = true ↔
      ∃ r, resp = some r ∧ ¬(400 ≤ r.status_code ∧ r.status_code < 600) ∧
        r.json_ok = true := by
  rcases resp with _ | r
  · simp [send_pagerduty_event]
  · simp only [send_pagerduty_event, Option.some.injEq]
    constructor
    · intro h
      split at h
      · exact absurd h (by simp)
      · rename_i hst
        split at h
        · rename_i hj
          exact ⟨r, rfl, hst, hj⟩
        · exact absurd h (by simp)
    · rintro ⟨r', hr', hst, hj⟩
      cases hr'
      rw [if_neg hst, if_pos hj]

/-- C8 (counterexample): a 304 response (not 2xx-class) with a JSON body is
reported as success, because `raise_for_status()` only raises for 4xx/5xx. -/
theorem pagerduty_304_reported_success :
    ¬(200 ≤ 304 ∧ 304 < 300) ∧
      send_pagerduty_event "routing-key-0" (some ⟨304, true⟩) = true := by
  decide

/-- C10: if either required environment variable is absent (or empty, which
Python truthiness treats the same), module loading raises the `ValueError`
of lines 30-37 before `main` can run: the process performs no detection and
no outbound request (its interaction trace is empty). -/
theorem missing_config_blocks_run (env : OsEnv) (w : World)
    (h : env.slackWebhookVar = none ∨ env.pagerdutyRoutingKeyVar = none) :
    (∃ e, (runProgram env w).1 = Except.error e) ∧ (runProgram env w).2 = [] := by
  rcases h with h | h
  · simp [runProgram, loadConfig, h]
  · cases hs : env.slackWebhookVar with
    | none => simp [runProgram, loadConfig, hs]
    | some s =>
      by_cases hse : s = "" <;> simp [runProgram, loadConfig, hs, hse, h]

/-- C10 (witness): with `SLACK_WEBHOOK` unset, the run errors out with an
empty interaction trace. -/
theorem missing_config_blocks_run_witness :
    (∃ e, (runProgram ⟨none, some "routing-key-0"⟩ worldQuiet).1 = Except.error e) ∧
      (runProgram ⟨none, some "routing-key-0"⟩ worldQuiet).2 = [] :=
  missing_config_blocks_run ⟨none, some "routing-key-0"⟩ worldQuiet (Or.inl rfl)

end RcbTicketMonitor
